import Mathlib

/-!
Shallow embedding of the chain-resolution cache and request forwarder of
the blocks_mcp repository (src/block_scout_api.rs, src/tools.rs).

The external network is modelled by oracles: a registry oracle mapping a
chain id to the reply of GET https://chains.blockscout.com/api/chains/id,
and an explorer oracle mapping a full URL and query-parameter list to the
reply of the explorer GET. A reply is either a transport failure of the
send itself, or an HTTP status together with the result of parsing the
body (`none` when the body is not valid JSON of the expected shape).

The cache (Rust: Arc RwLock HashMap i32 Chain) is modelled as an
association list keyed by the chain id; lookup takes the most recent
insertion, matching HashMap overwrite semantics on the only observations
the code performs (lookups). Sequential executions thread the cache
explicitly; the lock discipline itself is modelled separately at the end
of the file for the concurrency claim.
-/

namespace BlocksMcp

/-- Rust struct ChainExplorer: one explorer descriptor, a URL. -/
structure ChainExplorer where
  url : String
deriving DecidableEq, Repr

/-- Rust struct Chain: the registry record for a chain id. -/
structure Chain where
  name : String
  description : String
  is_test_net : Bool
  explorers : List ChainExplorer
deriving DecidableEq, Repr

/-- Errors of the resolver (API::get_chain / Chain::get_url). -/
inductive ResolveError where
  /-- the registry send itself failed (reqwest transport error). -/
  | sendFailed
  /-- "request failed: status" for a non-200 registry status. -/
  | lookupFailed (status : Nat)
  /-- the 200 body did not parse as a Chain (res.json() error). -/
  | decodeFailed
  /-- "no explorers": the record has an empty explorer list. -/
  | noExplorers
deriving DecidableEq, Repr

/-- Rust Chain::get_url: first explorer's URL, or the "no explorers" error. -/
def Chain.get_url (c : Chain) : Except ResolveError String :=
  if h : 0 < c.explorers.length then
    Except.ok (c.explorers.get ⟨0, h⟩).url
  else
    Except.error ResolveError.noExplorers

/-- Reply of one registry fetch: transport failure, or a status code with
the result of parsing the body as a Chain. -/
inductive RegistryReply where
  | noResponse
  | response (status : Nat) (body : Option Chain)

/-- The registry oracle: what GET api/chains/id returns for each id. -/
def Registry : Type := Int → RegistryReply

/-- The cache: association list from chain id to Chain, most recent first. -/
def Cache : Type := List (Int × Chain)

/-- Cache lookup (HashMap::get observable behavior). -/
def Cache.lookup (m : Cache) (k : Int) : Option Chain :=
  match List.find? (fun p => p.1 == k) m with
  | some p => some p.2
  | none => none

/-- Cache insert (HashMap::insert observable behavior: overwrites). -/
def Cache.insert (m : Cache) (k : Int) (v : Chain) : Cache :=
  (k, v) :: m

/-- Outcome of one API::get_chain call: the returned value, the cache
after the call, and how many registry fetches were issued (0 or 1). -/
structure GetChainResult where
  result : Except ResolveError Chain
  cache : Cache
  fetches : Nat

/-- Rust API::get_chain: serve from the cache when present; otherwise
fetch the registry, fail without caching on transport error, non-200
status, or body-decode error, and on success insert the record and
return it. Status is checked before the body is parsed, as in the source. -/
def API.get_chain (reg : Registry) (cache : Cache) (chain_id : Int) :
    GetChainResult :=
  match Cache.lookup cache chain_id with
  | some chain => ⟨Except.ok chain, cache, 0⟩
  | none =>
    match reg chain_id with
    | RegistryReply.noResponse => ⟨Except.error ResolveError.sendFailed, cache, 1⟩
    | RegistryReply.response status body =>
      if status ≠ 200 then
        ⟨Except.error (ResolveError.lookupFailed status), cache, 1⟩
      else
        match body with
        | none => ⟨Except.error ResolveError.decodeFailed, cache, 1⟩
        | some chain => ⟨Except.ok chain, Cache.insert cache chain_id chain, 1⟩

/-- Outcome of one API::get_chain_explorer_url call. -/
structure GetUrlResult where
  result : Except ResolveError String
  cache : Cache
  fetches : Nat

/-- The hardcoded override URL for chain id 4200 (Merlin). -/
def merlinUrl : String := "https://scan.merlinverify.com/"

/-- Rust API::get_chain_explorer_url: chain id 4200 returns the fixed
Merlin URL with no cache or registry access; otherwise get_chain then
Chain::get_url. -/
def API.get_chain_explorer_url (reg : Registry) (cache : Cache)
    (chain_id : Int) : GetUrlResult :=
  if chain_id = 4200 then
    ⟨Except.ok merlinUrl, cache, 0⟩
  else
    match API.get_chain reg cache chain_id with
    | ⟨Except.error e, c, n⟩ => ⟨Except.error e, c, n⟩
    | ⟨Except.ok chain, c, n⟩ => ⟨Chain.get_url chain, c, n⟩

/-- A concrete chain record with an empty explorer list. -/
def emptyChain : Chain := ⟨"Foo", "a chain with no explorers", false, []⟩

/-- A concrete explorer descriptor. -/
def ethExplorer : ChainExplorer := ⟨"https://eth.blockscout.com/"⟩

/-- A concrete chain record with one explorer. -/
def ethChain : Chain := ⟨"Ethereum", "mainnet", false, [ethExplorer]⟩

/-- A registry oracle answering every id with a 200 empty-explorer record. -/
def regEmpty : Registry := fun _ => RegistryReply.response 200 (some emptyChain)

/-- A registry oracle answering every id with HTTP 500. -/
def regServerError : Registry := fun _ => RegistryReply.response 500 none

/-- A registry oracle answering every id with a 200 one-explorer record. -/
def regEth : Registry := fun _ => RegistryReply.response 200 (some ethChain)

/-- JSON values, for explorer response bodies (serde_json::Value). -/
inductive Json where
  | null
  | bool (b : Bool)
  | num (n : Int)
  | str (s : String)
  | arr (elems : List Json)
  | obj (fields : List (String × Json))

/-- Errors of API::request. The three resolver errors propagate through
the question-mark operator; they are tagged here as upstreamUnavailable
to record the code path that produced them. -/
inductive RequestError where
  /-- the resolver failed, so the explorer URL is unavailable. -/
  | upstreamUnavailable (e : ResolveError)
  /-- the explorer send itself failed (reqwest transport error). -/
  | sendFailed
  /-- "request failed: status" for a non-200 explorer status. -/
  | requestFailed (status : Nat)
  /-- the 200 body did not parse as JSON (res.json() error). -/
  | decodeFailed

/-- Reply of one explorer GET: transport failure, or a status code with
the result of parsing the body as JSON. -/
inductive ExplorerReply where
  | noResponse
  | response (status : Nat) (body : Option Json)

/-- The explorer oracle: what a GET to a full URL with a query returns. -/
def Explorer : Type := String → List (String × String) → ExplorerReply

/-- Outcome of one API::request call: the returned value, the cache after
the call, registry fetches issued, and the explorer GET issued (full URL
and query), if any. -/
structure RequestResult where
  result : Except RequestError Json
  cache : Cache
  fetches : Nat
  issued : Option (String × List (String × String))

/-- Rust API::request: resolve the base URL (a resolver error propagates
with no explorer request issued), then GET url ++ "api/v2/" ++ path with
the given query; a non-200 status is requestFailed, an unparseable 200
body is decodeFailed, otherwise the parsed JSON body is returned. The
status is checked before the body is parsed, as in the source. -/
def API.request (reg : Registry) (api : Explorer) (cache : Cache)
    (chain_id : Int) (path : String) (query : List (String × String)) :
    RequestResult :=
  let r := API.get_chain_explorer_url reg cache chain_id
  match r.result with
  | Except.error e =>
    ⟨Except.error (RequestError.upstreamUnavailable e), r.cache, r.fetches, none⟩
  | Except.ok url =>
    match api (url ++ "api/v2/" ++ path) query with
    | ExplorerReply.noResponse =>
      ⟨Except.error RequestError.sendFailed, r.cache, r.fetches,
        some (url ++ "api/v2/" ++ path, query)⟩
    | ExplorerReply.response status body =>
      if status ≠ 200 then
        ⟨Except.error (RequestError.requestFailed status), r.cache, r.fetches,
          some (url ++ "api/v2/" ++ path, query)⟩
      else
        match body with
        | none =>
          ⟨Except.error RequestError.decodeFailed, r.cache, r.fetches,
            some (url ++ "api/v2/" ++ path, query)⟩
        | some j =>
          ⟨Except.ok j, r.cache, r.fetches,
            some (url ++ "api/v2/" ++ path, query)⟩

/-- Rust struct SearchParams: the search query string. -/
structure SearchParams where
  q : String

/-- serde query serialization of SearchParams: q is always serialized;
the source has no skip attribute on this field. -/
def SearchParams.toQuery (p : SearchParams) : List (String × String) :=
  [("q", p.q)]

/-- Rust struct GetTransactionsParams: all three fields are optional
filters, skipped when empty; typ is renamed to "type". -/
structure GetTransactionsParams where
  filter : String
  typ : String
  method : String

/-- serde query serialization of GetTransactionsParams. -/
def GetTransactionsParams.toQuery (p : GetTransactionsParams) :
    List (String × String) :=
  (if p.filter = "" then [] else [("filter", p.filter)]) ++
  (if p.typ = "" then [] else [("type", p.typ)]) ++
  (if p.method = "" then [] else [("method", p.method)])

/-- Rust struct GetBlocksParams: one optional filter, renamed "type". -/
structure GetBlocksParams where
  typ : String

/-- serde query serialization of GetBlocksParams. -/
def GetBlocksParams.toQuery (p : GetBlocksParams) : List (String × String) :=
  if p.typ = "" then [] else [("type", p.typ)]

/-- Rust struct GetTransactionTokenTransfersParams. -/
structure GetTransactionTokenTransfersParams where
  typ : String

/-- serde query serialization of GetTransactionTokenTransfersParams. -/
def GetTransactionTokenTransfersParams.toQuery
    (p : GetTransactionTokenTransfersParams) : List (String × String) :=
  if p.typ = "" then [] else [("type", p.typ)]

/-- Rust struct GetAddressTransactionsParams. -/
structure GetAddressTransactionsParams where
  filter : String

/-- serde query serialization of GetAddressTransactionsParams. -/
def GetAddressTransactionsParams.toQuery (p : GetAddressTransactionsParams) :
    List (String × String) :=
  if p.filter = "" then [] else [("filter", p.filter)]

/-- Rust struct GetAddressTokenTransfersParams: three optional filters,
declared in source order typ ("type"), filter, token. -/
structure GetAddressTokenTransfersParams where
  typ : String
  filter : String
  token : String

/-- serde query serialization of GetAddressTokenTransfersParams. -/
def GetAddressTokenTransfersParams.toQuery
    (p : GetAddressTokenTransfersParams) : List (String × String) :=
  (if p.typ = "" then [] else [("type", p.typ)]) ++
  (if p.filter = "" then [] else [("filter", p.filter)]) ++
  (if p.token = "" then [] else [("token", p.token)])

/-- Rust struct GetAddressInternalTransactionsParams. -/
structure GetAddressInternalTransactionsParams where
  filter : String

/-- serde query serialization of GetAddressInternalTransactionsParams. -/
def GetAddressInternalTransactionsParams.toQuery
    (p : GetAddressInternalTransactionsParams) : List (String × String) :=
  if p.filter = "" then [] else [("filter", p.filter)]

/-- Rust struct GetAddressTokensParams. -/
structure GetAddressTokensParams where
  typ : String

/-- serde query serialization of GetAddressTokensParams. -/
def GetAddressTokensParams.toQuery (p : GetAddressTokensParams) :
    List (String × String) :=
  if p.typ = "" then [] else [("type", p.typ)]

/-- Rust struct GetAddressNftsParams. -/
structure GetAddressNftsParams where
  typ : String

/-- serde query serialization of GetAddressNftsParams. -/
def GetAddressNftsParams.toQuery (p : GetAddressNftsParams) :
    List (String × String) :=
  if p.typ = "" then [] else [("type", p.typ)]

/-- Rust struct GetTokensParams: two optional filters q and typ ("type"),
both skipped when empty. -/
structure GetTokensParams where
  q : String
  typ : String

/-- serde query serialization of GetTokensParams. -/
def GetTokensParams.toQuery (p : GetTokensParams) : List (String × String) :=
  (if p.q = "" then [] else [("q", p.q)]) ++
  (if p.typ = "" then [] else [("type", p.typ)])

/-- The query pairs of q whose key is k. -/
def pairsWithKey (k : String) (q : List (String × String)) :
    List (String × String) :=
  List.filter (fun kv => kv.1 == k) q

/-- Rust API::search: forward to request with path "search". -/
def API.search (reg : Registry) (api : Explorer) (cache : Cache)
    (chain_id : Int) (params : SearchParams) : RequestResult :=
  API.request reg api cache chain_id "search" (SearchParams.toQuery params)

/-- Rust API::get_transactions: forward with path "transactions". -/
def API.get_transactions (reg : Registry) (api : Explorer) (cache : Cache)
    (chain_id : Int) (params : GetTransactionsParams) : RequestResult :=
  API.request reg api cache chain_id "transactions"
    (GetTransactionsParams.toQuery params)

/-- The JSON body of the end-to-end search scenario: items is empty. -/
def itemsEmptyJson : Json := Json.obj [("items", Json.arr [])]

/-- An explorer oracle answering every GET with 200 and the empty-items
body. -/
def apiOk : Explorer := fun _ _ => ExplorerReply.response 200 (some itemsEmptyJson)

/-- An explorer oracle whose send always fails (network unreachable). -/
def apiDown : Explorer := fun _ _ => ExplorerReply.noResponse

/-- A cache already holding the one-explorer record for chain id 1. -/
def cacheEth : Cache := [(1, ethChain)]

/-- Phase of one in-flight get_chain call in the lock model: start (about
to take the read lock and check the cache), wantWrite (cache miss,
waiting for the write lock), fetching (holding the write lock while the
registry fetch is in flight), done. The write lock is held across the
fetch, as in the source: the guard is acquired before the reqwest send
and dropped only after the insert. -/
inductive Phase where
  | start
  | wantWrite
  | fetching
  | done
deriving DecidableEq, Fintype

/-- Lock-model configuration: the phases of two concurrent get_chain
calls for two distinct chain ids, the current write-lock holder, and
whether each id is cached. false names the first task, true the second. -/
structure LockConfig where
  phase1 : Phase
  phase2 : Phase
  writer : Option Bool
  cached1 : Bool
  cached2 : Bool
deriving DecidableEq, Fintype

/-- The phase of task t. -/
def LockConfig.phase (c : LockConfig) (t : Bool) : Phase :=
  if t then c.phase2 else c.phase1

/-- Whether task t's chain id is cached. -/
def LockConfig.isCached (c : LockConfig) (t : Bool) : Bool :=
  if t then c.cached2 else c.cached1

/-- Replace the phase of task t. -/
def LockConfig.setPhase (c : LockConfig) (t : Bool) (p : Phase) : LockConfig :=
  if t then ⟨c.phase1, p, c.writer, c.cached1, c.cached2⟩
  else ⟨p, c.phase2, c.writer, c.cached1, c.cached2⟩

/-- Replace the write-lock holder. -/
def LockConfig.setWriter (c : LockConfig) (w : Option Bool) : LockConfig :=
  ⟨c.phase1, c.phase2, w, c.cached1, c.cached2⟩

/-- Mark task t's chain id as cached. -/
def LockConfig.setCached (c : LockConfig) (t : Bool) : LockConfig :=
  if t then ⟨c.phase1, c.phase2, c.writer, c.cached1, true⟩
  else ⟨c.phase1, c.phase2, c.writer, true, c.cached2⟩

/-- One step of task t in the lock model. From start, the task takes the
read lock (possible only while no writer holds the lock), checks the
cache and releases: a hit finishes, a miss moves to wantWrite. From
wantWrite, the task acquires the write lock when it is free and begins
its registry fetch. From fetching, the fetch completes: the record is
inserted and the write lock released. A task with no enabled move (the
write lock is held by the other task) returns none. -/
def stepTask (t : Bool) (c : LockConfig) : Option LockConfig :=
  match LockConfig.phase c t with
  | Phase.start =>
    if c.writer = none then
      some (LockConfig.setPhase c t
        (if LockConfig.isCached c t then Phase.done else Phase.wantWrite))
    else none
  | Phase.wantWrite =>
    if c.writer = none then
      some (LockConfig.setWriter (LockConfig.setPhase c t Phase.fetching) (some t))
    else none
  | Phase.fetching =>
    some (LockConfig.setCached
      (LockConfig.setWriter (LockConfig.setPhase c t Phase.done) none) t)
  | Phase.done => none

/-- Run a schedule: each entry names the task to step next; a blocked
task leaves the configuration unchanged. -/
def runSched (sched : List Bool) (c : LockConfig) : LockConfig :=
  match sched with
  | [] => c
  | t :: rest => runSched rest ((stepTask t c).getD c)

/-- Both resolutions start concurrently, both ids uncached, lock free. -/
def initConfig : LockConfig := ⟨Phase.start, Phase.start, none, false, false⟩

/-- The write-lock holder is exactly the task whose fetch is in flight. -/
def lockInv (c : LockConfig) : Bool :=
  ((c.writer == some false) == (c.phase1 == Phase.fetching)) &&
  ((c.writer == some true) == (c.phase2 == Phase.fetching))

/-- Both registry fetches are in flight at once. -/
def bothFetching (c : LockConfig) : Bool :=
  (c.phase1 == Phase.fetching) && (c.phase2 == Phase.fetching)

end BlocksMcp

namespace BlocksMcp

/-- C4: resolving chain id 4200 always yields the fixed Merlin URL,
leaves the cache unchanged, and issues no registry fetch, for every
registry oracle and every cache contents. -/
theorem merlin_override_bypasses_cache_and_registry
    (reg : Registry) (cache : Cache) :
    API.get_chain_explorer_url reg cache 4200 =
      ⟨Except.ok "https://scan.merlinverify.com/", cache, 0⟩ := by
  rfl

/-- C1: for any chain id other than 4200 that is not in the cache, if the
registry fetch succeeds (200, valid body) but the record has an empty
explorer list, resolution fails with the no-explorers error while the
record is still inserted into the cache; and every resolution that finds
that record in the cache fails the same way with no registry fetch and no
cache change. -/
theorem empty_explorer_record_cached_and_fails
    (reg : Registry) (cache : Cache) (chain_id : Int) (chain : Chain)
    (hid : chain_id ≠ 4200)
    (hmiss : Cache.lookup cache chain_id = none)
    (hreg : reg chain_id = RegistryReply.response 200 (some chain))
    (hempty : chain.explorers = []) :
    API.get_chain_explorer_url reg cache chain_id =
      ⟨Except.error ResolveError.noExplorers, Cache.insert cache chain_id chain, 1⟩ ∧
    ∀ c : Cache, Cache.lookup c chain_id = some chain →
      API.get_chain_explorer_url reg c chain_id =
        ⟨Except.error ResolveError.noExplorers, c, 0⟩ := by
  constructor
  · simp only [API.get_chain_explorer_url, API.get_chain, hid, hmiss, hreg,
      if_neg hid, ne_eq, not_true_eq_false, if_false, Chain.get_url, hempty,
      List.length_nil, lt_self_iff_false, dif_neg, not_false_eq_true]
  · intro c hc
    simp only [API.get_chain_explorer_url, API.get_chain, hid, hc,
      if_neg hid, if_false, Chain.get_url, hempty, List.length_nil,
      lt_self_iff_false, dif_neg, not_false_eq_true]

/-- C1 witness: registry returning an empty-explorer record for id 1;
first call fails and caches the record, the next call fails from cache
with no fetch. -/
theorem empty_explorer_record_cached_and_fails_witness :
    API.get_chain_explorer_url regEmpty [] 1 =
      ⟨Except.error ResolveError.noExplorers, Cache.insert [] 1 emptyChain, 1⟩ ∧
    API.get_chain_explorer_url regEmpty (Cache.insert [] 1 emptyChain) 1 =
      ⟨Except.error ResolveError.noExplorers, Cache.insert [] 1 emptyChain, 0⟩ :=
  ⟨(empty_explorer_record_cached_and_fails regEmpty [] 1 emptyChain
      (by decide) rfl rfl rfl).1,
   (empty_explorer_record_cached_and_fails regEmpty [] 1 emptyChain
      (by decide) rfl rfl rfl).2 _ rfl⟩

/-- C2: for any chain id other than 4200 that is not in the cache, a
non-200 registry status makes resolution fail with the lookup-failed
error carrying that status, leaves the cache unchanged, and a later call
for the same id issues the registry fetch again. -/
theorem non_200_registry_status_not_cached
    (reg : Registry) (cache : Cache) (chain_id : Int)
    (status : Nat) (body : Option Chain)
    (hid : chain_id ≠ 4200)
    (hmiss : Cache.lookup cache chain_id = none)
    (hreg : reg chain_id = RegistryReply.response status body)
    (hstatus : status ≠ 200) :
    API.get_chain_explorer_url reg cache chain_id =
      ⟨Except.error (ResolveError.lookupFailed status), cache, 1⟩ ∧
    (API.get_chain_explorer_url reg
      (API.get_chain_explorer_url reg cache chain_id).cache chain_id).fetches = 1 := by
  have h1 : API.get_chain_explorer_url reg cache chain_id =
      ⟨Except.error (ResolveError.lookupFailed status), cache, 1⟩ := by
    simp only [API.get_chain_explorer_url, API.get_chain, hid, hmiss, hreg,
      if_neg hid, if_false, ne_eq, hstatus, not_false_eq_true, if_true]
  refine ⟨h1, ?_⟩
  rw [h1]
  simp only [API.get_chain_explorer_url, API.get_chain, hid, hmiss, hreg,
    if_neg hid, if_false, ne_eq, hstatus, not_false_eq_true, if_true]

/-- C2 witness: registry answering 500 for id 1; resolution fails with
lookupFailed 500, the cache stays empty and the second call fetches again. -/
theorem non_200_registry_status_not_cached_witness :
    API.get_chain_explorer_url regServerError [] 1 =
      ⟨Except.error (ResolveError.lookupFailed 500), [], 1⟩ ∧
    (API.get_chain_explorer_url regServerError
      (API.get_chain_explorer_url regServerError [] 1).cache 1).fetches = 1 :=
  non_200_registry_status_not_cached regServerError [] 1 500 none
    (by decide) rfl rfl (by decide)

/-- Looking up the freshly inserted key finds the inserted record. -/
theorem Cache.lookup_insert (m : Cache) (k : Int) (v : Chain) :
    Cache.lookup (Cache.insert m k v) k = some v := by
  simp [Cache.lookup, Cache.insert, List.find?]

/-- Inserting one key leaves the lookup of every other key unchanged. -/
theorem Cache.lookup_insert_ne (m : Cache) (k j : Int) (v : Chain)
    (h : j ≠ k) :
    Cache.lookup (Cache.insert m k v) j = Cache.lookup m j := by
  have hk : (k == j) = false := by
    simp only [beq_eq_false_iff_ne, ne_eq]
    exact fun hkj => h hkj.symm
  simp [Cache.lookup, Cache.insert, List.find?, hk]

/-- A resolution that finds, in the cache, a record whose first explorer
URL is url, returns url with no fetch and no cache change. -/
theorem resolve_from_cache (reg : Registry) (c : Cache) (chain_id : Int)
    (chain : Chain) (url : String) (hid : chain_id ≠ 4200)
    (hc : Cache.lookup c chain_id = some chain)
    (hu : Chain.get_url chain = Except.ok url) :
    API.get_chain_explorer_url reg c chain_id = ⟨Except.ok url, c, 0⟩ := by
  simp only [API.get_chain_explorer_url, API.get_chain, if_neg hid, hc, hu]

/-- After a successful URL resolution, the resulting cache holds, at the
requested id, a record whose first explorer URL is the returned URL. -/
theorem resolved_record_in_cache (reg : Registry) (cache : Cache)
    (chain_id : Int) (url : String) (hid : chain_id ≠ 4200)
    (hok : (API.get_chain_explorer_url reg cache chain_id).result = Except.ok url) :
    ∃ chain,
      Cache.lookup (API.get_chain_explorer_url reg cache chain_id).cache chain_id =
        some chain ∧ Chain.get_url chain = Except.ok url := by
  rcases hcl : Cache.lookup cache chain_id with _ | chain
  · rcases hr : reg chain_id with _ | ⟨status, body⟩
    · exfalso
      simp [API.get_chain_explorer_url, API.get_chain, if_neg hid, hcl, hr] at hok
    · by_cases hs : status = 200
      · subst hs
        rcases body with _ | chain
        · exfalso
          simp [API.get_chain_explorer_url, API.get_chain, if_neg hid, hcl, hr] at hok
        · refine ⟨chain, ?_, ?_⟩
          · simp [API.get_chain_explorer_url, API.get_chain, if_neg hid, hcl, hr,
              Cache.lookup_insert]
          · simpa [API.get_chain_explorer_url, API.get_chain, if_neg hid, hcl, hr]
              using hok
      · exfalso
        simp [API.get_chain_explorer_url, API.get_chain, if_neg hid, hcl, hr, hs] at hok
  · refine ⟨chain, ?_, ?_⟩
    · simp [API.get_chain_explorer_url, API.get_chain, if_neg hid, hcl]
    · simpa [API.get_chain_explorer_url, API.get_chain, if_neg hid, hcl] using hok

/-- Every resolution issues at most one registry fetch. -/
theorem resolve_fetches_le_one (reg : Registry) (cache : Cache)
    (chain_id : Int) :
    (API.get_chain_explorer_url reg cache chain_id).fetches ≤ 1 := by
  by_cases hid : chain_id = 4200
  · simp [API.get_chain_explorer_url, hid]
  · rcases hcl : Cache.lookup cache chain_id with _ | chain
    · rcases hr : reg chain_id with _ | ⟨status, body⟩
      · simp [API.get_chain_explorer_url, API.get_chain, if_neg hid, hcl, hr]
      · by_cases hs : status = 200
        · subst hs
          rcases body with _ | chain <;>
            simp [API.get_chain_explorer_url, API.get_chain, if_neg hid, hcl, hr]
        · simp [API.get_chain_explorer_url, API.get_chain, if_neg hid, hcl, hr, hs]
    · simp [API.get_chain_explorer_url, API.get_chain, if_neg hid, hcl]

/-- C5 counterexample: with a registry that always answers 500, two
sequential resolutions of chain id 1 issue two registry fetches, not at
most one: the failed first lookup is not cached, so the second call
fetches again. -/
theorem two_failed_resolutions_fetch_twice :
    ¬ ((API.get_chain_explorer_url regServerError [] 1).fetches +
        (API.get_chain_explorer_url regServerError
          (API.get_chain_explorer_url regServerError [] 1).cache 1).fetches ≤ 1) := by
  decide

/-- C5 amended: for every chain id other than 4200, when the first
resolution succeeds with some URL, two sequential resolutions issue at
most one registry fetch in total; the second call performs no fetch,
leaves the cache unchanged, and returns the same URL, the first
explorer's URL of the cached record. -/
theorem second_resolution_serves_from_cache
    (reg : Registry) (cache : Cache) (chain_id : Int) (url : String)
    (hid : chain_id ≠ 4200)
    (hok : (API.get_chain_explorer_url reg cache chain_id).result = Except.ok url) :
    (API.get_chain_explorer_url reg cache chain_id).fetches +
      (API.get_chain_explorer_url reg
        (API.get_chain_explorer_url reg cache chain_id).cache chain_id).fetches ≤ 1 ∧
    API.get_chain_explorer_url reg
        (API.get_chain_explorer_url reg cache chain_id).cache chain_id =
      ⟨Except.ok url, (API.get_chain_explorer_url reg cache chain_id).cache, 0⟩ := by
  obtain ⟨chain, hc, hu⟩ := resolved_record_in_cache reg cache chain_id url hid hok
  have h2 := resolve_from_cache reg
    (API.get_chain_explorer_url reg cache chain_id).cache chain_id chain url hid hc hu
  refine ⟨?_, h2⟩
  have h1 := resolve_fetches_le_one reg cache chain_id
  rw [h2]
  simpa using h1

/-- C5 witness: a registry answering with the one-explorer record; the
first resolution of id 1 succeeds, and the pair of calls fetches at most
once, the second serving the cached record's first explorer URL. -/
theorem second_resolution_serves_from_cache_witness :
    (API.get_chain_explorer_url regEth [] 1).fetches +
      (API.get_chain_explorer_url regEth
        (API.get_chain_explorer_url regEth [] 1).cache 1).fetches ≤ 1 ∧
    API.get_chain_explorer_url regEth
        (API.get_chain_explorer_url regEth [] 1).cache 1 =
      ⟨Except.ok "https://eth.blockscout.com/",
        (API.get_chain_explorer_url regEth [] 1).cache, 0⟩ :=
  second_resolution_serves_from_cache regEth [] 1 "https://eth.blockscout.com/"
    (by decide) rfl

/-- C3 counterexample: with a registry answering 200 and an
empty-explorer record for chain id 1, the first resolution fails, yet the
subsequent call for the same id fails again with zero registry fetches —
it does not re-issue the fetch, because the empty-explorer record was
memoized. -/
theorem failing_chain_id_not_refetched :
    (API.get_chain_explorer_url regEmpty [] 1).result =
      Except.error ResolveError.noExplorers ∧
    (API.get_chain_explorer_url regEmpty
      (API.get_chain_explorer_url regEmpty [] 1).cache 1).result =
      Except.error ResolveError.noExplorers ∧
    (API.get_chain_explorer_url regEmpty
      (API.get_chain_explorer_url regEmpty [] 1).cache 1).fetches = 0 :=
  ⟨rfl, rfl, rfl⟩

/-- C3 amended: the cache never stores an error result: whenever
get_chain fails, the cache is unchanged, and every call for a chain id
absent from the cache issues a registry fetch; however, a fetched record
with zero explorers is cached even though URL resolution fails on it, so
subsequent resolutions of such an id fail without re-fetching. -/
theorem failed_lookups_not_memoized
    (reg : Registry) (cache : Cache) (chain_id : Int) :
    (∀ e, (API.get_chain reg cache chain_id).result = Except.error e →
      (API.get_chain reg cache chain_id).cache = cache) ∧
    (Cache.lookup cache chain_id = none →
      (API.get_chain reg cache chain_id).fetches = 1) ∧
    (∀ chain, chain_id ≠ 4200 → Cache.lookup cache chain_id = none →
      reg chain_id = RegistryReply.response 200 (some chain) →
      chain.explorers = [] →
      (API.get_chain_explorer_url reg
        (API.get_chain_explorer_url reg cache chain_id).cache chain_id).result =
        Except.error ResolveError.noExplorers ∧
      (API.get_chain_explorer_url reg
        (API.get_chain_explorer_url reg cache chain_id).cache chain_id).fetches = 0) := by
  refine ⟨?_, ?_, ?_⟩
  · intro e he
    rcases hcl : Cache.lookup cache chain_id with _ | chain
    · rcases hr : reg chain_id with _ | ⟨status, body⟩
      · simp [API.get_chain, hcl, hr]
      · by_cases hs : status = 200
        · subst hs
          rcases body with _ | chain
          · simp [API.get_chain, hcl, hr]
          · exfalso
            simp [API.get_chain, hcl, hr] at he
        · simp [API.get_chain, hcl, hr, hs]
    · simp [API.get_chain, hcl]
  · intro hcl
    rcases hr : reg chain_id with _ | ⟨status, body⟩
    · simp [API.get_chain, hcl, hr]
    · by_cases hs : status = 200
      · subst hs
        rcases body with _ | chain <;> simp [API.get_chain, hcl, hr]
      · simp [API.get_chain, hcl, hr, hs]
  · intro chain hid hcl hr hempty
    have hcache : (API.get_chain_explorer_url reg cache chain_id).cache =
        Cache.insert cache chain_id chain := by
      simp [API.get_chain_explorer_url, API.get_chain, if_neg hid, hcl, hr,
        Chain.get_url, hempty]
    rw [hcache]
    constructor
    · simp [API.get_chain_explorer_url, API.get_chain, if_neg hid,
        Cache.lookup_insert, Chain.get_url, hempty]
    · simp [API.get_chain_explorer_url, API.get_chain, if_neg hid,
        Cache.lookup_insert, Chain.get_url, hempty]

/-- C3 amended witness: a failed 500 lookup of id 1 leaves the empty
cache empty and fetched once; an empty-explorer record for id 2 is
memoized and its second resolution performs zero fetches. -/
theorem failed_lookups_not_memoized_witness :
    (API.get_chain regServerError [] 1).cache = [] ∧
    (API.get_chain regServerError [] 1).fetches = 1 ∧
    (API.get_chain_explorer_url regEmpty
      (API.get_chain_explorer_url regEmpty [] 2).cache 2).fetches = 0 :=
  ⟨(failed_lookups_not_memoized regServerError [] 1).1
      (ResolveError.lookupFailed 500) rfl,
   (failed_lookups_not_memoized regServerError [] 1).2.1 rfl,
   ((failed_lookups_not_memoized regEmpty [] 2).2.2 emptyChain
      (by decide) rfl rfl rfl).2⟩

/-- C6: for every optional string filter field of every params struct —
the fields carrying the skip-when-empty serde attribute in the source —
an empty value contributes no query pair for its key, and a non-empty
value contributes exactly the single pair with the original value. (The
q field of SearchParams is a required parameter of the search tool and
carries no skip attribute; it is serialized unconditionally.) -/
theorem empty_filters_omitted_from_query :
    (∀ p : GetTransactionsParams,
      pairsWithKey "filter" (GetTransactionsParams.toQuery p) =
        (if p.filter = "" then [] else [("filter", p.filter)]) ∧
      pairsWithKey "type" (GetTransactionsParams.toQuery p) =
        (if p.typ = "" then [] else [("type", p.typ)]) ∧
      pairsWithKey "method" (GetTransactionsParams.toQuery p) =
        (if p.method = "" then [] else [("method", p.method)])) ∧
    (∀ p : GetBlocksParams,
      pairsWithKey "type" (GetBlocksParams.toQuery p) =
        (if p.typ = "" then [] else [("type", p.typ)])) ∧
    (∀ p : GetTransactionTokenTransfersParams,
      pairsWithKey "type" (GetTransactionTokenTransfersParams.toQuery p) =
        (if p.typ = "" then [] else [("type", p.typ)])) ∧
    (∀ p : GetAddressTransactionsParams,
      pairsWithKey "filter" (GetAddressTransactionsParams.toQuery p) =
        (if p.filter = "" then [] else [("filter", p.filter)])) ∧
    (∀ p : GetAddressTokenTransfersParams,
      pairsWithKey "type" (GetAddressTokenTransfersParams.toQuery p) =
        (if p.typ = "" then [] else [("type", p.typ)]) ∧
      pairsWithKey "filter" (GetAddressTokenTransfersParams.toQuery p) =
        (if p.filter = "" then [] else [("filter", p.filter)]) ∧
      pairsWithKey "token" (GetAddressTokenTransfersParams.toQuery p) =
        (if p.token = "" then [] else [("token", p.token)])) ∧
    (∀ p : GetAddressInternalTransactionsParams,
      pairsWithKey "filter" (GetAddressInternalTransactionsParams.toQuery p) =
        (if p.filter = "" then [] else [("filter", p.filter)])) ∧
    (∀ p : GetAddressTokensParams,
      pairsWithKey "type" (GetAddressTokensParams.toQuery p) =
        (if p.typ = "" then [] else [("type", p.typ)])) ∧
    (∀ p : GetAddressNftsParams,
      pairsWithKey "type" (GetAddressNftsParams.toQuery p) =
        (if p.typ = "" then [] else [("type", p.typ)])) ∧
    (∀ p : GetTokensParams,
      pairsWithKey "q" (GetTokensParams.toQuery p) =
        (if p.q = "" then [] else [("q", p.q)]) ∧
      pairsWithKey "type" (GetTokensParams.toQuery p) =
        (if p.typ = "" then [] else [("type", p.typ)])) := by
  refine ⟨?_, ?_, ?_, ?_, ?_, ?_, ?_, ?_, ?_⟩ <;> intro p <;>
    simp only [pairsWithKey, GetTransactionsParams.toQuery,
      GetBlocksParams.toQuery, GetTransactionTokenTransfersParams.toQuery,
      GetAddressTransactionsParams.toQuery,
      GetAddressTokenTransfersParams.toQuery,
      GetAddressInternalTransactionsParams.toQuery,
      GetAddressTokensParams.toQuery, GetAddressNftsParams.toQuery,
      GetTokensParams.toQuery] <;>
    split_ifs <;> simp_all

/-- C7 counterexample: with chain id 1 already cached and the explorer
unreachable (the send itself fails), request fails with a transport
error that is none of the three listed error outcomes and is not a
success either — a fifth outcome occurs. -/
theorem request_transport_error_is_fifth_outcome :
    ¬ ((∃ e, (API.request regEth apiDown cacheEth 1 "search" [("q", "WETH")]).result =
          Except.error (RequestError.upstreamUnavailable e)) ∨
       (∃ s, (API.request regEth apiDown cacheEth 1 "search" [("q", "WETH")]).result =
          Except.error (RequestError.requestFailed s)) ∨
       (API.request regEth apiDown cacheEth 1 "search" [("q", "WETH")]).result =
          Except.error RequestError.decodeFailed ∨
       (∃ j, (API.request regEth apiDown cacheEth 1 "search" [("q", "WETH")]).result =
          Except.ok j)) := by
  have h : (API.request regEth apiDown cacheEth 1 "search" [("q", "WETH")]).result =
      Except.error RequestError.sendFailed := rfl
  intro hcl
  rw [h] at hcl
  simp at hcl

/-- C7 amended: every request call has exactly one of five outcomes,
determined by the resolver and the explorer oracle: upstreamUnavailable
when the resolver fails (and no explorer request is issued); a transport
error when the explorer send fails; requestFailed with the status when
the explorer answers non-200; decodeFailed when a 200 body is not valid
JSON; otherwise success with the parsed body. -/
theorem request_outcomes
    (reg : Registry) (api : Explorer) (cache : Cache) (chain_id : Int)
    (path : String) (query : List (String × String)) :
    (∀ e, (API.get_chain_explorer_url reg cache chain_id).result = Except.error e →
      (API.request reg api cache chain_id path query).result =
        Except.error (RequestError.upstreamUnavailable e) ∧
      (API.request reg api cache chain_id path query).issued = none) ∧
    (∀ url, (API.get_chain_explorer_url reg cache chain_id).result = Except.ok url →
      (api (url ++ "api/v2/" ++ path) query = ExplorerReply.noResponse →
        (API.request reg api cache chain_id path query).result =
          Except.error RequestError.sendFailed) ∧
      (∀ status body,
        api (url ++ "api/v2/" ++ path) query = ExplorerReply.response status body →
        (status ≠ 200 →
          (API.request reg api cache chain_id path query).result =
            Except.error (RequestError.requestFailed status)) ∧
        (status = 200 → body = none →
          (API.request reg api cache chain_id path query).result =
            Except.error RequestError.decodeFailed) ∧
        (∀ j, status = 200 → body = some j →
          (API.request reg api cache chain_id path query).result =
            Except.ok j))) := by
  refine ⟨?_, ?_⟩
  · intro e he
    constructor <;> simp [API.request, he]
  · intro url hu
    refine ⟨?_, ?_⟩
    · intro hapi
      simp [API.request, hu, hapi]
    · intro status body hapi
      refine ⟨?_, ?_, ?_⟩
      · intro hs
        simp [API.request, hu, hapi, hs]
      · intro hs hb
        subst hs
        subst hb
        simp [API.request, hu, hapi]
      · intro j hs hb
        subst hs
        subst hb
        simp [API.request, hu, hapi]

/-- C7 amended witness: with the one-explorer registry, the search
request for chain id 1 succeeds with the parsed empty-items body. -/
theorem request_outcomes_witness :
    (API.request regEth apiOk [] 1 "search" [("q", "WETH")]).result =
      Except.ok itemsEmptyJson :=
  (((request_outcomes regEth apiOk [] 1 "search" [("q", "WETH")]).2
      "https://eth.blockscout.com/" rfl).2 200 (some itemsEmptyJson) rfl).2.2
    itemsEmptyJson rfl rfl

/-- C8: when the resolver returns a base URL, request issues exactly one
explorer GET, to url ++ "api/v2/" ++ path with the given query pairs, and
a 200 response with JSON body j makes request return j unchanged; in
particular, search on chain id 1 with the cached explorer and q = "WETH"
issues GET https://eth.blockscout.com/api/v2/search with the single query
pair q = WETH, and the 200 empty-items body comes back verbatim. -/
theorem request_builds_url_and_returns_body
    (reg : Registry) (api : Explorer) (cache : Cache) (chain_id : Int)
    (path : String) (query : List (String × String)) (url : String)
    (hok : (API.get_chain_explorer_url reg cache chain_id).result = Except.ok url) :
    (API.request reg api cache chain_id path query).issued =
      some (url ++ "api/v2/" ++ path, query) ∧
    (∀ j, api (url ++ "api/v2/" ++ path) query = ExplorerReply.response 200 (some j) →
      (API.request reg api cache chain_id path query).result = Except.ok j) ∧
    API.search regEth apiOk cacheEth 1 ⟨"WETH"⟩ =
      ⟨Except.ok (Json.obj [("items", Json.arr [])]), cacheEth, 0,
        some ("https://eth.blockscout.com/api/v2/search", [("q", "WETH")])⟩ := by
  refine ⟨?_, ?_, ?_⟩
  · rcases hapi : api (url ++ "api/v2/" ++ path) query with _ | ⟨status, body⟩
    · simp [API.request, hok, hapi]
    · by_cases hs : status = 200
      · subst hs
        rcases body with _ | j <;> simp [API.request, hok, hapi]
      · simp [API.request, hok, hapi, hs]
  · intro j hapi
    simp [API.request, hok, hapi]
  · rfl

/-- C8 witness: the concrete end-to-end search call. -/
theorem request_builds_url_and_returns_body_witness :
    (API.request regEth apiOk cacheEth 1 "search" [("q", "WETH")]).issued =
      some ("https://eth.blockscout.com/" ++ "api/v2/" ++ "search",
        [("q", "WETH")]) ∧
    (API.request regEth apiOk cacheEth 1 "search" [("q", "WETH")]).result =
      Except.ok itemsEmptyJson :=
  ⟨(request_builds_url_and_returns_body regEth apiOk cacheEth 1 "search"
      [("q", "WETH")] "https://eth.blockscout.com/" rfl).1,
   (request_builds_url_and_returns_body regEth apiOk cacheEth 1 "search"
      [("q", "WETH")] "https://eth.blockscout.com/" rfl).2.1
     itemsEmptyJson rfl⟩

/-- C10: frame property of the cache. A get_chain call changes no cache
entry for any id other than the requested one; its cache either stays
exactly the same or gains exactly the record of a successful 200
fetch-and-parse for the requested id; a cache hit changes nothing. A
get_chain_explorer_url call leaves the cache alone for the override id
and otherwise has exactly get_chain's cache; a request call has exactly
get_chain_explorer_url's cache. -/
theorem cache_frame_property
    (reg : Registry) (api : Explorer) (cache : Cache) (chain_id : Int)
    (path : String) (query : List (String × String)) :
    (∀ j, j ≠ chain_id →
      Cache.lookup (API.get_chain reg cache chain_id).cache j =
        Cache.lookup cache j) ∧
    ((API.get_chain reg cache chain_id).cache = cache ∨
      ∃ chain, reg chain_id = RegistryReply.response 200 (some chain) ∧
        (API.get_chain reg cache chain_id).result = Except.ok chain ∧
        (API.get_chain reg cache chain_id).cache =
          Cache.insert cache chain_id chain) ∧
    (∀ chain, Cache.lookup cache chain_id = some chain →
      (API.get_chain reg cache chain_id).cache = cache) ∧
    (chain_id = 4200 →
      (API.get_chain_explorer_url reg cache chain_id).cache = cache) ∧
    (chain_id ≠ 4200 →
      (API.get_chain_explorer_url reg cache chain_id).cache =
        (API.get_chain reg cache chain_id).cache) ∧
    (API.request reg api cache chain_id path query).cache =
      (API.get_chain_explorer_url reg cache chain_id).cache := by
  have hmain : (API.get_chain reg cache chain_id).cache = cache ∨
      ∃ chain, reg chain_id = RegistryReply.response 200 (some chain) ∧
        (API.get_chain reg cache chain_id).result = Except.ok chain ∧
        (API.get_chain reg cache chain_id).cache =
          Cache.insert cache chain_id chain := by
    rcases hcl : Cache.lookup cache chain_id with _ | chain
    · rcases hr : reg chain_id with _ | ⟨status, body⟩
      · left
        simp [API.get_chain, hcl, hr]
      · by_cases hs : status = 200
        · subst hs
          rcases body with _ | chain
          · left
            simp [API.get_chain, hcl, hr]
          · right
            exact ⟨chain, rfl, by simp [API.get_chain, hcl, hr],
              by simp [API.get_chain, hcl, hr]⟩
        · left
          simp [API.get_chain, hcl, hr, hs]
    · left
      simp [API.get_chain, hcl]
  refine ⟨?_, hmain, ?_, ?_, ?_, ?_⟩
  · intro j hj
    rcases hmain with hsame | ⟨chain, _, _, hins⟩
    · rw [hsame]
    · rw [hins, Cache.lookup_insert_ne cache chain_id j chain hj]
  · intro chain hcl
    simp [API.get_chain, hcl]
  · intro hid
    simp [API.get_chain_explorer_url, hid]
  · intro hid
    rcases hgc : API.get_chain reg cache chain_id with ⟨r, c, n⟩
    cases r <;> simp [API.get_chain_explorer_url, if_neg hid, hgc]
  · rcases hu : (API.get_chain_explorer_url reg cache chain_id).result
      with e | url
    · simp [API.request, hu]
    · rcases hapi : api (url ++ "api/v2/" ++ path) query with _ | ⟨status, body⟩
      · simp [API.request, hu, hapi]
      · by_cases hs : status = 200
        · subst hs
          rcases body with _ | j <;> simp [API.request, hu, hapi]
        · simp [API.request, hu, hapi, hs]

/-- C10 witness: a fetch for id 1 does not disturb the entry space of
id 2, and a cache hit for id 1 leaves the cache exactly as it was. -/
theorem cache_frame_property_witness :
    Cache.lookup (API.get_chain regEth [] 1).cache 2 =
      Cache.lookup ([] : Cache) 2 ∧
    (API.get_chain regEth cacheEth 1).cache = cacheEth :=
  ⟨(cache_frame_property regEth apiOk [] 1 "search" []).1 2 (by decide),
   (cache_frame_property regEth apiOk cacheEth 1 "search" []).2.2.1
     ethChain rfl⟩

set_option maxRecDepth 8192 in
/-- In the lock model, the write-lock holder is exactly the task whose
fetch is in flight, and this is preserved by every step of either task. -/
theorem lockInv_step (c : LockConfig) (t : Bool) (h : lockInv c = true) :
    lockInv ((stepTask t c).getD c) = true := by
  revert h
  revert t
  revert c
  decide

/-- The lock invariant holds after running any schedule from a
configuration satisfying it. -/
theorem lockInv_runSched (sched : List Bool) (c : LockConfig)
    (h : lockInv c = true) : lockInv (runSched sched c) = true := by
  induction sched generalizing c with
  | nil => exact h
  | cons t rest ih => exact ih ((stepTask t c).getD c) (lockInv_step c t h)

set_option maxRecDepth 8192 in
/-- Configurations satisfying the lock invariant never have both fetches
in flight. -/
theorem lockInv_not_bothFetching (c : LockConfig) (h : lockInv c = true) :
    bothFetching c = false := by
  revert h
  revert c
  decide

/-- C9 counterexample: start both resolutions on two distinct uncached
chain ids; after the schedule on which the first task checks the cache
and then acquires the write lock to begin its registry fetch, the second
task has no enabled move at all — it is blocked until the first task's
fetch completes — refuting that neither resolution waits for the other's
registry fetch. -/
theorem second_resolution_blocked_during_first_fetch :
    (runSched [false, false] initConfig).phase1 = Phase.fetching ∧
    (runSched [false, false] initConfig).phase2 = Phase.start ∧
    stepTask true (runSched [false, false] initConfig) = none := by
  decide

/-- C9 amended: both concurrent first-time resolutions of two distinct
uncached chain ids do succeed and populate their two independent cache
entries (shown on a complete schedule), but they do not proceed in
parallel: the registry fetch happens while holding the exclusive write
lock, so in every schedule the two fetches are never in flight at the
same time. -/
theorem concurrent_resolutions_serialized :
    ((runSched [false, false, false, true, true, true] initConfig).phase1 =
        Phase.done ∧
      (runSched [false, false, false, true, true, true] initConfig).phase2 =
        Phase.done ∧
      (runSched [false, false, false, true, true, true] initConfig).cached1 =
        true ∧
      (runSched [false, false, false, true, true, true] initConfig).cached2 =
        true) ∧
    ∀ sched : List Bool, bothFetching (runSched sched initConfig) = false := by
  refine ⟨by decide, ?_⟩
  intro sched
  exact lockInv_not_bothFetching _ (lockInv_runSched sched initConfig (by decide))

end BlocksMcp
